import Mathlib

set_option maxRecDepth 1000000

/-!
Verification development for the CHATVITASYS shared-room application
(`src/app.py`): a password- and OTP-gated chat room with file sharing and
time-based file retention.

The embedding models:
* the JSON-backed credential table (`_room_passwords.json`) and OTP table
  (`_otp_cache.json`) as association lists with Python-dict semantics
  (first-match lookup; assignment replaces the existing key in place and
  appends a fresh key at the end);
* `hashlib.sha256(...).hexdigest()` as a full executable SHA-256 over the
  UTF-8 bytes of the password;
* timestamps (`time.time()`, file mtimes) as integers measured in seconds;
* the room directory tree as a list of directory names plus, per room, a
  list of file entries (name, mtime, content bytes);
* the Streamlit login handler, the file-upload/listing handlers, the
  retention sweep `cleanup_old_files`, and the chat form as pure state
  transformers.
-/

namespace Chatvita

/-! ## Python-dict association lists -/

/-- First-match lookup, the semantics of `d[k]` / `k in d` on a Python dict
(which never holds duplicate keys, so first match is the only match). -/
def dictLookup {α : Type} (d : List (String × α)) (k : String) : Option α :=
  match d with
  | [] => none
  | (k', v) :: rest => if k' = k then some v else dictLookup rest k

/-- Python-dict assignment `d[k] = v`: replaces the value at an existing key
in place, otherwise appends the new pair at the end. -/
def dictInsert {α : Type} (d : List (String × α)) (k : String) (v : α) :
    List (String × α) :=
  match d with
  | [] => [(k, v)]
  | (k', v') :: rest =>
      if k' = k then (k, v) :: rest else (k', v') :: dictInsert rest k v

/-- The keys of the table, in order. -/
def dictKeys {α : Type} (d : List (String × α)) : List String :=
  d.map Prod.fst

/-! ## SHA-256 (`hashlib.sha256(password.encode()).hexdigest()`)

Machine words are `Nat` reduced modulo `2 ^ 32`; the bitwise operations are
defined by structural recursion on a 32-bit fuel so that every digest is
kernel-computable. -/

/-- Word size modulus. -/
def M32 : Nat := 4294967296

/-- Combine `fuel` low bits of `a` and `b` with a bit-level function. -/
def bitZip (f : Nat → Nat → Nat) : Nat → Nat → Nat → Nat
  | 0, _, _ => 0
  | fuel + 1, a, b => f (a % 2) (b % 2) + 2 * bitZip f fuel (a / 2) (b / 2)

/-- 32-bit exclusive or. -/
def xor32 (a b : Nat) : Nat := bitZip (fun x y => (x + y) % 2) 32 a b

/-- 32-bit bitwise and. -/
def and32 (a b : Nat) : Nat := bitZip (fun x y => x * y) 32 a b

/-- 32-bit bitwise complement. -/
def not32 (a : Nat) : Nat := bitZip (fun x _ => 1 - x) 32 a 0

/-- Rotate a 32-bit word right by `n` places. -/
def rotr32 (n x : Nat) : Nat := (x / 2 ^ n + x % 2 ^ n * 2 ^ (32 - n)) % M32

/-- Logical right shift of a 32-bit word. -/
def shr32 (n x : Nat) : Nat := x / 2 ^ n

/-- SHA-256 choice function. -/
def sha_ch (e f g : Nat) : Nat := xor32 (and32 e f) (and32 (not32 e) g)

/-- SHA-256 majority function. -/
def sha_maj (a b c : Nat) : Nat := xor32 (xor32 (and32 a b) (and32 a c)) (and32 b c)

/-- SHA-256 big sigma 0. -/
def bsig0 (x : Nat) : Nat := xor32 (xor32 (rotr32 2 x) (rotr32 13 x)) (rotr32 22 x)

/-- SHA-256 big sigma 1. -/
def bsig1 (x : Nat) : Nat := xor32 (xor32 (rotr32 6 x) (rotr32 11 x)) (rotr32 25 x)

/-- SHA-256 small sigma 0. -/
def ssig0 (x : Nat) : Nat := xor32 (xor32 (rotr32 7 x) (rotr32 18 x)) (shr32 3 x)

/-- SHA-256 small sigma 1. -/
def ssig1 (x : Nat) : Nat := xor32 (xor32 (rotr32 17 x) (rotr32 19 x)) (shr32 10 x)

/-- The 64 SHA-256 round constants of FIPS 180-4, written in decimal. -/
def K : List Nat :=
  [1116352408, 1899447441, 3049323471, 3921009573, 961987163, 1508970993,
   2453635748, 2870763221, 3624381080, 310598401, 607225278, 1426881987,
   1925078388, 2162078206, 2614888103, 3248222580, 3835390401, 4022224774,
   264347078, 604807628, 770255983, 1249150122, 1555081692, 1996064986,
   2554220882, 2821834349, 2952996808, 3210313671, 3336571891, 3584528711,
   113926993, 338241895, 666307205, 773529912, 1294757372, 1396182291,
   1695183700, 1986661051, 2177026350, 2456956037, 2730485921, 2820302411,
   3259730800, 3345764771, 3516065817, 3600352804, 4094571909, 275423344,
   430227734, 506948616, 659060556, 883997877, 958139571, 1322822218,
   1537002063, 1747873779, 1955562222, 2024104815, 2227730452, 2361852424,
   2428436474, 2756734187, 3204031479, 3329325298]

/-- The SHA-256 initial hash value of FIPS 180-4, written in decimal. -/
def H0 : List Nat :=
  [1779033703, 3144134277, 1013904242, 2773480762, 1359893119, 2600822924,
   528734635, 1541459225]

/-- Big-endian byte decomposition of `n` into `k` bytes. -/
def bytesBE : Nat → Nat → List Nat
  | 0, _ => []
  | k + 1, n => bytesBE k (n / 256) ++ [n % 256]

/-- SHA-256 padding: append `0x80`, zero bytes up to 56 mod 64, then the
message bit length as 8 big-endian bytes. -/
def padMessage (msg : List Nat) : List Nat :=
  msg ++ [0x80] ++ List.replicate ((119 - msg.length % 64) % 64) 0
      ++ bytesBE 8 (msg.length * 8)

/-- Group bytes into big-endian 32-bit words. -/
def toWords : List Nat → List Nat
  | b0 :: b1 :: b2 :: b3 :: rest =>
      (((b0 * 256 + b1) * 256 + b2) * 256 + b3) :: toWords rest
  | _ => []

/-- Extend a 16-word block by `n` further schedule words. -/
def extendW : Nat → List Nat → List Nat
  | 0, w => w
  | n + 1, w =>
      let i := w.length
      let wt := (ssig1 (w.getD (i - 2) 0) + w.getD (i - 7) 0
                  + ssig0 (w.getD (i - 15) 0) + w.getD (i - 16) 0) % M32
      extendW n (w ++ [wt])

/-- One SHA-256 compression round on the working variables `[a,…,h]`. -/
def round1 (k w a b c d e f g h : Nat) : List Nat :=
  let t1 := (h + bsig1 e + sha_ch e f g + k + w) % M32
  let t2 := (bsig0 a + sha_maj a b c) % M32
  [(t1 + t2) % M32, a, b, c, (d + t1) % M32, e, f, g]

/-- Run the compression rounds over the paired constants and schedule. -/
def rounds64 : List Nat → List Nat → List Nat → List Nat
  | k :: ks, w :: ws, [a, b, c, d, e, f, g, h] =>
      rounds64 ks ws (round1 k w a b c d e f g h)
  | _, _, st => st

/-- Compress one 16-word block into the running hash. -/
def compress (h : List Nat) (block : List Nat) : List Nat :=
  let w := extendW 48 block
  let st := rounds64 K w h
  List.zipWith (fun x y => (x + y) % M32) h st

/-- Fold `compress` over the 16-word blocks of the padded message; the fuel
is an upper bound on the number of remaining words. -/
def sha256Loop : Nat → List Nat → List Nat → List Nat
  | 0, h, _ => h
  | fuel + 1, h, ws =>
      match ws with
      | [] => h
      | _ => sha256Loop fuel (compress h (ws.take 16)) (ws.drop 16)

/-- One lower-case hexadecimal digit. -/
def hexDigit (n : Nat) : Char :=
  if n < 10 then Char.ofNat (48 + n) else Char.ofNat (87 + n)

/-- `k` hexadecimal digits of `n`, most significant first. -/
def hexChars : Nat → Nat → List Char
  | 0, _ => []
  | k + 1, n => hexChars k (n / 16) ++ [hexDigit (n % 16)]

/-- The SHA-256 hex digest of a byte string. -/
def sha256hex (msg : List Nat) : String :=
  let ws := toWords (padMessage msg)
  let hs := sha256Loop ws.length H0 ws
  String.mk (hs.flatMap (hexChars 8))

/-- UTF-8 encoding of one code point, as in Python's `str.encode()`. -/
def utf8EncodeCharNat (c : Nat) : List Nat :=
  if c < 0x80 then [c]
  else if c < 0x800 then
    [0xC0 + c / 64, 0x80 + c % 64]
  else if c < 0x10000 then
    [0xE0 + c / 4096, 0x80 + c / 64 % 64, 0x80 + c % 64]
  else
    [0xF0 + c / 262144, 0x80 + c / 4096 % 64, 0x80 + c / 64 % 64, 0x80 + c % 64]

/-- The UTF-8 bytes of a string, Python's `s.encode()`. -/
def strBytes (s : String) : List Nat :=
  s.data.flatMap (fun c => utf8EncodeCharNat c.toNat)

/-- `hash_pw` from `app.py`:
`hashlib.sha256(password.encode()).hexdigest()`. -/
def hash_pw (password : String) : String :=
  sha256hex (strBytes password)

/-- `check_password` from `app.py`: `hash_pw(password) == hashed`. -/
def check_password (password hashed : String) : Bool :=
  hash_pw password == hashed

/-! ## OTP issuance and validation -/

/-- One entry of the OTP cache: `{"otp": ..., "timestamp": ...}`.
`time.time()` values are modelled as integer seconds. -/
structure OtpEntry where
  otp : String
  timestamp : Int
deriving DecidableEq, Repr

/-- The persisted OTP table, `_otp_cache.json`. -/
abbrev OtpDict : Type := List (String × OtpEntry)

/-- `generate_otp` from `app.py`. The value drawn by
`random.randint(100000, 999999)` and the current `time.time()` are inputs;
the function stores `str(rnd)` with the issue time under the username
(overwriting any prior entry) and returns the code. -/
def generate_otp (rnd : Nat) (now : Int) (data : OtpDict) (username : String) :
    String × OtpDict :=
  let otp := toString rnd
  (otp, dictInsert data username ⟨otp, now⟩)

/-- `validate_otp` from `app.py`: false when the username has no entry or
the entry is older than 300 seconds; otherwise string-exact comparison of
the stored code with the input. -/
def validate_otp (now : Int) (data : OtpDict) (username input_otp : String) :
    Bool :=
  match dictLookup data username with
  | some entry =>
      if now - entry.timestamp > 300 then false
      else entry.otp == input_otp
  | none => false

/-- The `validate_otp` call as it acts on the persisted OTP store: the
handler only calls `load_otps()` (a read) and never `save_otps`, so the
store component of the result is the input store. -/
def validate_otp_op (now : Int) (data : OtpDict) (username input_otp : String) :
    Bool × OtpDict :=
  (validate_otp now data username input_otp, data)

/-! ## Room folders, retention sweep, uploads -/

/-- `AUTO_DELETE_HOURS` from `app.py`. -/
def AUTO_DELETE_HOURS : Int := 12

/-- One file in a room directory: its name, its modification time
(`os.path.getmtime`, set by the write that created it) and its bytes. -/
structure FileEntry where
  name : String
  mtime : Int
  content : List Nat
deriving DecidableEq, Repr

/-- A room directory, as enumerated by `os.listdir`. -/
abbrev Folder : Type := List FileEntry

/-- `cleanup_old_files` from `app.py`: walk the directory; `chat.txt` is
skipped by `continue`; any other entry with
`now - mtime > timedelta(hours=12)` is removed by `os.remove`. -/
def cleanup_old_files (now : Int) (folder : Folder) : Folder :=
  match folder with
  | [] => []
  | f :: rest =>
      if f.name = "chat.txt" then f :: cleanup_old_files now rest
      else if now - f.mtime > AUTO_DELETE_HOURS * 3600 then
        cleanup_old_files now rest
      else f :: cleanup_old_files now rest

/-- First directory entry with the given name. -/
def fileLookup (folder : Folder) (name : String) : Option FileEntry :=
  match folder with
  | [] => none
  | f :: rest => if f.name = name then some f else fileLookup rest name

/-- The upload handler of `app.py`: `open(save_path, "wb")` followed by
`f.write(...)` truncates an existing file of that name and writes the
uploaded bytes, updating its mtime; a new name appears as a new entry. -/
def uploadFile (now : Int) (folder : Folder) (name : String)
    (bytes : List Nat) : Folder :=
  if folder.any (fun f => f.name = name) then
    folder.map (fun f => if f.name = name then ⟨name, now, bytes⟩ else f)
  else folder ++ [⟨name, now, bytes⟩]

/-- The shared-files listing of `app.py`:
`[f for f in os.listdir(room_path) if f != "chat.txt"]`. -/
def listSharedFiles (folder : Folder) : List String :=
  (folder.map (fun f => f.name)).filter (fun n => n ≠ "chat.txt")

/-! ## Chat transcript -/

/-- Python `str.isspace`, the character class stripped by `str.strip()`
with no argument: the ASCII whitespace and separator controls 9–13, 28–32,
NEL (133), no-break space (160), Ogham space mark (5760), the Unicode
spaces 8192–8202, line and paragraph separators (8232, 8233), narrow
no-break space (8239), medium mathematical space (8287), and ideographic
space (12288). -/
def isPySpace (c : Char) : Bool :=
  (9 ≤ c.toNat && c.toNat ≤ 13) || (28 ≤ c.toNat && c.toNat ≤ 32) ||
  c.toNat = 133 || c.toNat = 160 || c.toNat = 5760 ||
  (8192 ≤ c.toNat && c.toNat ≤ 8202) || c.toNat = 8232 || c.toNat = 8233 ||
  c.toNat = 8239 || c.toNat = 8287 || c.toNat = 12288

/-- Python `message.strip()`: drop leading and trailing whitespace. -/
def pyStrip (s : String) : String :=
  String.mk (((s.data.dropWhile isPySpace).reverse.dropWhile isPySpace).reverse)

/-- Zero-padded decimal of width 2, as in `strftime` fields `%m %d %H %M`. -/
def pad2 (n : Nat) : String :=
  if n < 10 then "0" ++ toString n else toString n

/-- Zero-padded decimal of width 4, as in `strftime` field `%Y`. -/
def pad4 (n : Nat) : String :=
  if n < 10 then "000" ++ toString n
  else if n < 100 then "00" ++ toString n
  else if n < 1000 then "0" ++ toString n
  else toString n

/-- `datetime.now().strftime("%Y-%m-%d %H:%M")`, with the clock reading
supplied as calendar fields. -/
def formatTimestamp (year month day hour minute : Nat) : String :=
  pad4 year ++ "-" ++ pad2 month ++ "-" ++ pad2 day ++ " "
    ++ pad2 hour ++ ":" ++ pad2 minute

/-- The chat form handler of `app.py`: when Send is pressed, if
`message.strip()` is falsy (empty) nothing is written; otherwise the line
`f"[{timestamp}] {username}: {message.strip()}\n"` is appended to
`chat.txt`. The transcript is the file content as a string. -/
def sendMessage (timestamp username : String) (chat message : String) :
    String :=
  if pyStrip message = "" then chat
  else
    chat ++ "[" ++ timestamp ++ "] " ++ username ++ ": "
      ++ pyStrip message ++ "\n"

/-! ## The login handler (SessionGate) -/

/-- Result of the credential bootstrap-or-verify branch of the login
handler (`room in room_passwords` check, lines 102–109 of `app.py`). -/
inductive BvResult where
  | Created
  | Verified
  | Rejected
deriving DecidableEq, Repr

/-- The persisted credential table, `_room_passwords.json`. -/
abbrev RoomDict : Type := List (String × String)

/-- The bootstrap-or-verify branch of the login handler: an unknown room
stores `hash_pw(password)` and reports creation; a known room compares
hashes via `check_password` and writes nothing. -/
def bootstrapOrVerify (room_passwords : RoomDict) (room password : String) :
    BvResult × RoomDict :=
  match dictLookup room_passwords room with
  | some h =>
      if check_password password h then (BvResult.Verified, room_passwords)
      else (BvResult.Rejected, room_passwords)
  | none =>
      (BvResult.Created, dictInsert room_passwords room (hash_pw password))

/-- Outcome of one press of the Login / Create Room button. -/
inductive LoginResult where
  | missingField
  | invalidOtp
  | wrongPassword
  | created
  | verified
deriving DecidableEq, Repr

/-- The persisted state the login handler can touch: the credential table,
the OTP table, and the set of room directories under `secure_rooms/`. -/
structure AppState where
  room_passwords : RoomDict
  otps : OtpDict
  dirs : List String
deriving DecidableEq, Repr

/-- `os.makedirs(room_path, exist_ok=True)`: creates the directory if
absent, otherwise changes nothing. -/
def makeDir (dirs : List String) (room : String) : List String :=
  if room ∈ dirs then dirs else dirs ++ [room]

/-- The login-button handler of `app.py` (lines 89–113) as a state
transformer. Empty fields abort first (`st.stop()`), then OTP validation
aborts, then the room directory is created with `os.makedirs` and the
credential branch either verifies or bootstraps the room password. -/
def login_step (now : Int) (username room password otp_input : String)
    (s : AppState) : LoginResult × AppState :=
  if username = "" ∨ room = "" ∨ password = "" ∨ otp_input = "" then
    (LoginResult.missingField, s)
  else if ¬ validate_otp now s.otps username otp_input then
    (LoginResult.invalidOtp, s)
  else
    let s1 : AppState := { s with dirs := makeDir s.dirs room }
    match dictLookup s1.room_passwords room with
    | some h =>
        if check_password password h then (LoginResult.verified, s1)
        else (LoginResult.wrongPassword, s1)
    | none =>
        (LoginResult.created,
          { s1 with
            room_passwords := dictInsert s1.room_passwords room (hash_pw password) })

/-- The room-directory invariant the application maintains: a room with a
stored credential has had `os.makedirs` run for it (the credential write at
line 108 is preceded by the `makedirs` at line 100, and no code removes a
directory). -/
def roomInv (s : AppState) : Prop :=
  ∀ r : String, (dictLookup s.room_passwords r).isSome → r ∈ s.dirs

/-! ## Association-list lemmas -/

lemma dictLookup_dictInsert_self {α : Type} (d : List (String × α)) (k : String) (v : α) :
    dictLookup (dictInsert d k v) k = some v := by
  induction d with
  | nil => simp [dictInsert, dictLookup]
  | cons p rest ih =>
      by_cases h : p.1 = k
      · simp [dictInsert, dictLookup, h]
      · simp [dictInsert, dictLookup, h, ih]

lemma dictLookup_dictInsert_ne {α : Type} (d : List (String × α)) (k k' : String) (v : α)
    (hne : k' ≠ k) : dictLookup (dictInsert d k v) k' = dictLookup d k' := by
  have hkk : k ≠ k' := Ne.symm hne
  induction d with
  | nil => simp [dictInsert, dictLookup, hkk]
  | cons p rest ih =>
      obtain ⟨a, b⟩ := p
      by_cases h : a = k
      · subst h
        simp [dictInsert, dictLookup, hkk]
      · by_cases h2 : a = k'
        · simp [dictInsert, dictLookup, h, h2, hne]
        · simp [dictInsert, dictLookup, h, h2, ih]

lemma dictInsert_dictInsert_same {α : Type} (d : List (String × α)) (k : String) (v1 v2 : α) :
    dictInsert (dictInsert d k v1) k v2 = dictInsert d k v2 := by
  induction d with
  | nil => simp [dictInsert]
  | cons p rest ih =>
      by_cases h : p.1 = k
      · simp [dictInsert, h]
      · simp [dictInsert, h, ih]

lemma countP_eq_zero_of_not_mem_keys {α : Type} (d : List (String × α)) (k : String)
    (h : k ∉ dictKeys d) : d.countP (fun e => e.1 == k) = 0 := by
  rw [List.countP_eq_zero]
  intro e he
  simp only [beq_iff_eq, decide_eq_true_eq]
  intro hek
  exact h (hek ▸ List.mem_map_of_mem Prod.fst he)

lemma countP_dictInsert_nodup {α : Type} (d : List (String × α)) (k : String) (v : α)
    (hnd : (dictKeys d).Nodup) :
    (dictInsert d k v).countP (fun e => e.1 == k) = 1 := by
  induction d with
  | nil => simp [dictInsert, List.countP_cons]
  | cons p rest ih =>
      obtain ⟨a, b⟩ := p
      simp only [dictKeys, List.map_cons, List.nodup_cons] at hnd
      by_cases h : a = k
      · subst h
        simp [dictInsert, List.countP_cons,
          countP_eq_zero_of_not_mem_keys rest a hnd.1]
      · simp [dictInsert, h, List.countP_cons, ih hnd.2]

/-! ## Python strip lemmas -/

lemma forall_mem_dropWhile_iff (p : Char → Bool) (l : List Char) :
    (∀ c ∈ l.dropWhile p, p c = true) ↔ ∀ c ∈ l, p c = true := by
  induction l with
  | nil => simp
  | cons c cs ih =>
      by_cases h : p c
      · simpa [List.dropWhile_cons, h] using ih
      · simp [List.dropWhile_cons, h]

lemma pyStrip_eq_empty_iff (s : String) :
    pyStrip s = "" ↔ ∀ c ∈ s.data, isPySpace c = true := by
  have hmk : ∀ l : List Char, String.mk l = "" ↔ l = [] := by
    intro l
    constructor
    · intro h
      have := congrArg String.data h
      simpa using this
    · intro h
      subst h
      rfl
  rw [pyStrip, hmk, List.reverse_eq_nil_iff, List.dropWhile_eq_nil_iff]
  constructor
  · intro h
    rw [← forall_mem_dropWhile_iff isPySpace s.data]
    intro c hc
    exact h c (by simpa using hc)
  · intro h c hc
    rw [List.mem_reverse] at hc
    exact h c ((List.dropWhile_suffix isPySpace).sublist.mem hc)

/-! ## Retention-sweep lemmas -/

lemma cleanup_old_files_sublist (now : Int) (folder : Folder) :
    (cleanup_old_files now folder).Sublist folder := by
  induction folder with
  | nil => simp [cleanup_old_files]
  | cons f rest ih =>
      unfold cleanup_old_files
      by_cases h : f.name = "chat.txt"
      · simpa [h] using List.Sublist.cons₂ f ih
      · by_cases h2 : now - f.mtime > AUTO_DELETE_HOURS * 3600
        · simpa [h, h2] using List.Sublist.cons f ih
        · simpa [h, h2] using List.Sublist.cons₂ f ih

lemma mem_cleanup_old_files (now : Int) (folder : Folder) (f : FileEntry) :
    f ∈ cleanup_old_files now folder ↔
      f ∈ folder ∧ (f.name = "chat.txt" ∨ now - f.mtime ≤ AUTO_DELETE_HOURS * 3600) := by
  induction folder with
  | nil => simp [cleanup_old_files]
  | cons g rest ih =>
      by_cases h : g.name = "chat.txt"
      · have hstep : cleanup_old_files now (g :: rest)
            = g :: cleanup_old_files now rest := by
          simp [cleanup_old_files, h]
        rw [hstep]
        simp only [List.mem_cons, ih]
        constructor
        · rintro (rfl | ⟨hmem, hor⟩)
          · exact ⟨Or.inl rfl, Or.inl h⟩
          · exact ⟨Or.inr hmem, hor⟩
        · rintro ⟨rfl | hmem, hor⟩
          · exact Or.inl rfl
          · exact Or.inr ⟨hmem, hor⟩
      · by_cases h2 : now - g.mtime > AUTO_DELETE_HOURS * 3600
        · have hstep : cleanup_old_files now (g :: rest)
              = cleanup_old_files now rest := by
            simp [cleanup_old_files, h, h2]
          rw [hstep, ih]
          simp only [List.mem_cons]
          constructor
          · rintro ⟨hmem, hor⟩
            exact ⟨Or.inr hmem, hor⟩
          · rintro ⟨rfl | hmem, hor⟩
            · rcases hor with hc | hle
              · exact absurd hc h
              · exact absurd h2 (not_lt.mpr hle)
            · exact ⟨hmem, hor⟩
        · have hstep : cleanup_old_files now (g :: rest)
              = g :: cleanup_old_files now rest := by
            simp [cleanup_old_files, h, h2]
          rw [hstep]
          simp only [List.mem_cons, ih]
          constructor
          · rintro (rfl | ⟨hmem, hor⟩)
            · exact ⟨Or.inl rfl, Or.inr (not_lt.mp h2)⟩
            · exact ⟨Or.inr hmem, hor⟩
          · rintro ⟨rfl | hmem, hor⟩
            · exact Or.inl rfl
            · exact Or.inr ⟨hmem, hor⟩

lemma cleanup_old_files_idem (now : Int) (folder : Folder) :
    cleanup_old_files now (cleanup_old_files now folder)
      = cleanup_old_files now folder := by
  induction folder with
  | nil => simp [cleanup_old_files]
  | cons f rest ih =>
      by_cases h : f.name = "chat.txt"
      · simp [cleanup_old_files, h, ih]
      · by_cases h2 : now - f.mtime > AUTO_DELETE_HOURS * 3600
        · simp [cleanup_old_files, h, h2, ih]
        · simp [cleanup_old_files, h, h2, ih]

lemma fileLookup_cleanup_chat (now : Int) (folder : Folder) :
    fileLookup (cleanup_old_files now folder) "chat.txt"
      = fileLookup folder "chat.txt" := by
  induction folder with
  | nil => simp [cleanup_old_files]
  | cons f rest ih =>
      by_cases h : f.name = "chat.txt"
      · simp [cleanup_old_files, fileLookup, h]
      · by_cases h2 : now - f.mtime > AUTO_DELETE_HOURS * 3600
        · simp [cleanup_old_files, fileLookup, h, h2, ih]
        · simp [cleanup_old_files, fileLookup, h, h2, ih]

/-! ## Upload and listing lemmas -/

lemma fileLookup_map_replace (folder : Folder) (name : String) (e : FileEntry)
    (he : e.name = name) (h : folder.any (fun f => f.name = name) = true) :
    fileLookup (folder.map (fun f => if f.name = name then e else f)) name
      = some e := by
  induction folder with
  | nil => simp at h
  | cons f rest ih =>
      by_cases hf : f.name = name
      · simp [fileLookup, hf, he]
      · have h2 : rest.any (fun f => f.name = name) = true := by
          simpa [hf] using h
        simp [fileLookup, hf, ih h2]

lemma fileLookup_none_of_not_any (folder : Folder) (name : String)
    (h : folder.any (fun f => f.name = name) = false) :
    fileLookup folder name = none := by
  induction folder with
  | nil => simp [fileLookup]
  | cons f rest ih =>
      simp only [List.any_cons, Bool.or_eq_false_iff, decide_eq_false_iff_not] at h
      simp [fileLookup, h.1, ih (by simpa using h.2)]

lemma fileLookup_append_of_none (l l2 : Folder) (name : String)
    (h : fileLookup l name = none) :
    fileLookup (l ++ l2) name = fileLookup l2 name := by
  induction l with
  | nil => simp
  | cons f rest ih =>
      by_cases hf : f.name = name
      · simp [fileLookup, hf] at h
      · simp only [List.cons_append]
        simp only [fileLookup, hf, if_false, ite_false] at h ⊢
        exact ih h

lemma fileLookup_uploadFile_self (now : Int) (folder : Folder) (name : String)
    (bytes : List Nat) :
    fileLookup (uploadFile now folder name bytes) name
      = some ⟨name, now, bytes⟩ := by
  unfold uploadFile
  by_cases h : folder.any (fun f => f.name = name) = true
  · rw [if_pos h]
    exact fileLookup_map_replace folder name _ rfl h
  · rw [if_neg h]
    rw [fileLookup_append_of_none folder _ name
      (fileLookup_none_of_not_any folder name (by simpa using h))]
    simp [fileLookup]

lemma count_listSharedFiles_chat (folder : Folder) :
    (listSharedFiles folder).count "chat.txt" = 0 := by
  rw [List.count_eq_zero]
  intro hmem
  rw [listSharedFiles, List.mem_filter] at hmem
  simp at hmem

/-! ## Claim theorems -/

/-- C2: `validate_otp u c` returns false exactly when no OTP record exists
for `u`, or the record's age `now - issuedAt` exceeds 300 seconds, or `c`
differs (string-exact comparison) from the stored code; in all other cases
it returns true. -/
theorem C2_validate_otp_spec (now : Int) (data : OtpDict) (u c : String) :
    (validate_otp now data u c = false ↔
      dictLookup data u = none ∨
        ∃ e : OtpEntry, dictLookup data u = some e ∧
          (now - e.timestamp > 300 ∨ e.otp ≠ c)) ∧
    (validate_otp now data u c = true ↔
      ∃ e : OtpEntry, dictLookup data u = some e ∧
        now - e.timestamp ≤ 300 ∧ e.otp = c) := by
  cases hd : dictLookup data u with
  | none => simp [validate_otp, hd]
  | some e =>
      by_cases ht : now - e.timestamp > 300
      · simp [validate_otp, hd, ht, not_le.mpr ht]
        intro h
        exact absurd ht (by omega)
      · simp [validate_otp, hd, ht, not_lt.mp ht, beq_iff_eq, beq_eq_false_iff_ne]
        intro _
        omega

/-- C5: `cleanup_old_files` removes exactly those entries other than
`chat.txt` whose age `now - mtime` strictly exceeds 12 hours; `chat.txt`
is never removed, regardless of age; entries aged 12 hours or less are
kept; nothing is added or reordered (the result is a sublist). -/
theorem C5_cleanup_old_files_spec (now : Int) (folder : Folder) :
    (cleanup_old_files now folder).Sublist folder ∧
    ∀ f : FileEntry,
      f ∈ cleanup_old_files now folder ↔
        f ∈ folder ∧
          (f.name = "chat.txt" ∨ now - f.mtime ≤ AUTO_DELETE_HOURS * 3600) :=
  ⟨cleanup_old_files_sublist now folder, fun f => mem_cleanup_old_files now folder f⟩

/-- C6: the retention sweep is idempotent: running `cleanup_old_files`
twice back-to-back at the same time on the same folder changes nothing the
second time. -/
theorem C6_cleanup_idempotent (now : Int) (folder : Folder) :
    cleanup_old_files now (cleanup_old_files now folder)
      = cleanup_old_files now folder :=
  cleanup_old_files_idem now folder

/-- C7: `validate_otp` never mutates the OTP store (the handler only reads
it), and a correct unexpired code validates again at any instant still
inside the 300-second window: the code is replayable. -/
theorem C7_validate_otp_pure (now : Int) (data : OtpDict) (u c : String) :
    (validate_otp_op now data u c).2 = data ∧
    (validate_otp now data u c = true →
      ∀ (nowr : Int) (e : OtpEntry), dictLookup data u = some e →
        nowr - e.timestamp ≤ 300 → validate_otp nowr data u c = true) := by
  refine ⟨rfl, ?_⟩
  intro hv nowr e he hwin
  simp only [validate_otp, he] at hv ⊢
  rw [if_neg (not_lt.mpr hwin)]
  by_cases ht : now - e.timestamp > 300
  · rw [if_pos ht] at hv
    exact absurd hv (by simp)
  · rwa [if_neg ht] at hv

/-- Witness for C7 at a concrete store: validating the stored code twice,
at seconds 10 and 200 after issue, succeeds both times without touching
the store. -/
theorem C7_witness :
    validate_otp 200 [("u", ⟨"123456", 0⟩)] "u" "123456" = true ∧
    (validate_otp_op 10 [("u", ⟨"123456", 0⟩)] "u" "123456").2
      = [("u", ⟨"123456", 0⟩)] :=
  have h := C7_validate_otp_pure 10 [("u", ⟨"123456", 0⟩)] "u" "123456"
  ⟨h.2 (by decide) 200 ⟨"123456", 0⟩ rfl (by decide), h.1⟩

/-- C10: `generate_otp` for username `u` leaves every other username's
record (code and issue time) unchanged. -/
theorem C10_generate_otp_frame (data : OtpDict) (u v : String) (rnd : Nat)
    (now : Int) (hne : v ≠ u) :
    dictLookup (generate_otp rnd now data u).2 v = dictLookup data v :=
  dictLookup_dictInsert_ne data u v ⟨toString rnd, now⟩ hne

/-- Witness for C10: issuing a code to `u` leaves `v`'s record intact. -/
theorem C10_witness :
    dictLookup (generate_otp 123456 5 [("v", ⟨"999999", 1⟩)] "u").2 "v"
      = some ⟨"999999", 1⟩ := by
  rw [C10_generate_otp_frame [("v", ⟨"999999", 1⟩)] "u" "v" 123456 5 (by decide)]
  rfl

/-- C9: the transcript name is not protected at upload: uploading a file
named `chat.txt` overwrites the room transcript with the uploaded bytes,
and the resulting file is still treated as the transcript — excluded from
the shared-files listing and untouched by the retention sweep at any
time. -/
theorem C9_upload_overwrites_transcript (now : Int) (folder : Folder)
    (bytes : List Nat) :
    fileLookup (uploadFile now folder "chat.txt" bytes) "chat.txt"
      = some ⟨"chat.txt", now, bytes⟩ ∧
    (listSharedFiles (uploadFile now folder "chat.txt" bytes)).count
      "chat.txt" = 0 ∧
    ∀ t : Int,
      fileLookup
          (cleanup_old_files t (uploadFile now folder "chat.txt" bytes))
          "chat.txt"
        = some ⟨"chat.txt", now, bytes⟩ :=
  ⟨fileLookup_uploadFile_self now folder "chat.txt" bytes,
   count_listSharedFiles_chat (uploadFile now folder "chat.txt" bytes),
   fun t =>
     (fileLookup_cleanup_chat t (uploadFile now folder "chat.txt" bytes)).trans
       (fileLookup_uploadFile_self now folder "chat.txt" bytes)⟩

/-- C4: issuing a second OTP for the same username overwrites the single
outstanding record: the stored record is the second one, there is exactly
one record for the username, the first code no longer validates (when the
two codes differ), and the second code validates within its window. -/
theorem C4_issue_twice_overwrites (data : OtpDict) (u : String) (r1 r2 : Nat)
    (now1 now2 : Int) (hnodup : (dictKeys data).Nodup) :
    dictLookup (generate_otp r2 now2 (generate_otp r1 now1 data u).2 u).2 u
      = some ⟨toString r2, now2⟩ ∧
    (generate_otp r2 now2 (generate_otp r1 now1 data u).2 u).2.countP
      (fun e => e.1 == u) = 1 ∧
    ((generate_otp r1 now1 data u).1
        ≠ (generate_otp r2 now2 (generate_otp r1 now1 data u).2 u).1 →
      ∀ now : Int,
        validate_otp now (generate_otp r2 now2 (generate_otp r1 now1 data u).2 u).2
          u (generate_otp r1 now1 data u).1 = false) ∧
    (∀ now : Int, now - now2 ≤ 300 →
      validate_otp now (generate_otp r2 now2 (generate_otp r1 now1 data u).2 u).2
        u (generate_otp r2 now2 (generate_otp r1 now1 data u).2 u).1 = true) := by
  have hd2 : (generate_otp r2 now2 (generate_otp r1 now1 data u).2 u).2
      = dictInsert data u ⟨toString r2, now2⟩ := by
    show dictInsert (dictInsert data u ⟨toString r1, now1⟩) u ⟨toString r2, now2⟩
        = dictInsert data u ⟨toString r2, now2⟩
    exact dictInsert_dictInsert_same data u _ _
  have hl : dictLookup (generate_otp r2 now2 (generate_otp r1 now1 data u).2 u).2 u
      = some ⟨toString r2, now2⟩ := by
    rw [hd2]; exact dictLookup_dictInsert_self data u _
  refine ⟨hl, ?_, ?_, ?_⟩
  · rw [hd2]; exact countP_dictInsert_nodup data u _ hnodup
  · intro hne now
    have hne2 : toString r1 ≠ toString r2 := hne
    simp only [validate_otp, hl]
    by_cases ht : now - (⟨toString r2, now2⟩ : OtpEntry).timestamp > 300
    · rw [if_pos ht]
    · rw [if_neg ht]
      show ((⟨toString r2, now2⟩ : OtpEntry).otp == toString r1) = false
      exact beq_eq_false_iff_ne.mpr (Ne.symm hne2)
  · intro now hwin
    simp only [validate_otp, hl]
    rw [if_neg (not_lt.mpr hwin)]
    show ((⟨toString r2, now2⟩ : OtpEntry).otp == toString r2) = true
    exact beq_self_eq_true (toString r2)

/-- C1: for a room not yet in the credential table, the bootstrap-or-verify
branch returns Created and persists `hash_pw password` under the room name;
afterwards the same password is Verified and a password with a different
hash is Rejected; and on any non-Created outcome the table is unchanged
(the only persistence write is on the Created path). -/
theorem C1_bootstrapOrVerify_spec (d : RoomDict) (room p q : String)
    (hroom : room ≠ "") (hp : p ≠ "")
    (hfresh : dictLookup d room = none)
    (hcoll : hash_pw q ≠ hash_pw p) :
    (bootstrapOrVerify d room p).1 = BvResult.Created ∧
    dictLookup (bootstrapOrVerify d room p).2 room = some (hash_pw p) ∧
    bootstrapOrVerify (bootstrapOrVerify d room p).2 room p
      = (BvResult.Verified, (bootstrapOrVerify d room p).2) ∧
    bootstrapOrVerify (bootstrapOrVerify d room p).2 room q
      = (BvResult.Rejected, (bootstrapOrVerify d room p).2) ∧
    (∀ (d2 : RoomDict) (w : String),
      (bootstrapOrVerify d2 room w).1 ≠ BvResult.Created →
        (bootstrapOrVerify d2 room w).2 = d2) := by
  have h1 : bootstrapOrVerify d room p
      = (BvResult.Created, dictInsert d room (hash_pw p)) := by
    simp only [bootstrapOrVerify, hfresh]
  have hl : dictLookup (dictInsert d room (hash_pw p)) room = some (hash_pw p) :=
    dictLookup_dictInsert_self d room (hash_pw p)
  refine ⟨by rw [h1], by rw [h1]; exact hl, ?_, ?_, ?_⟩
  · rw [h1]
    simp only [bootstrapOrVerify, hl, check_password, beq_self_eq_true, if_pos]
  · rw [h1]
    simp only [bootstrapOrVerify, hl, check_password]
    rw [if_neg (by simp [beq_eq_false_iff_ne.mpr hcoll])]
  · intro d2 w hq
    revert hq
    unfold bootstrapOrVerify
    cases hd : dictLookup d2 room with
    | none => intro hq; exact absurd rfl hq
    | some hsh =>
        intro _
        show (if check_password w hsh = true then (BvResult.Verified, d2)
              else (BvResult.Rejected, d2)).2 = d2
        split <;> rfl

/-- Witness for C1: creating room `r` with password `a` and then attempting
password `b` is rejected without changing the stored table. -/
theorem C1_witness :
    (bootstrapOrVerify [] "r" "a").1 = BvResult.Created ∧
    bootstrapOrVerify (bootstrapOrVerify [] "r" "a").2 "r" "b"
      = (BvResult.Rejected, (bootstrapOrVerify [] "r" "a").2) :=
  have h := C1_bootstrapOrVerify_spec [] "r" "a" "b" (by decide) (by decide) rfl
    (by decide)
  ⟨h.1, h.2.2.2.1⟩

lemma mem_makeDir_of_mem (dirs : List String) (room r : String) (h : r ∈ dirs) :
    r ∈ makeDir dirs room := by
  unfold makeDir
  split
  · exact h
  · exact List.mem_append_left _ h

lemma mem_makeDir_self (dirs : List String) (room : String) :
    room ∈ makeDir dirs room := by
  unfold makeDir
  split
  · assumption
  · exact List.mem_append_right _ (by simp)

lemma login_step_eq_missing (now : Int)
    (username room password otp_input : String) (s : AppState)
    (hempty : username = "" ∨ room = "" ∨ password = "" ∨ otp_input = "") :
    login_step now username room password otp_input s
      = (LoginResult.missingField, s) := by
  unfold login_step
  rw [if_pos hempty]

lemma login_step_eq_invalid (now : Int)
    (username room password otp_input : String) (s : AppState)
    (hempty : ¬(username = "" ∨ room = "" ∨ password = "" ∨ otp_input = ""))
    (hv : validate_otp now s.otps username otp_input = false) :
    login_step now username room password otp_input s
      = (LoginResult.invalidOtp, s) := by
  unfold login_step
  rw [if_neg hempty, if_pos (by simp [hv])]

lemma login_step_eq_of_some (now : Int)
    (username room password otp_input : String) (s : AppState) (hsh : String)
    (hempty : ¬(username = "" ∨ room = "" ∨ password = "" ∨ otp_input = ""))
    (hv : validate_otp now s.otps username otp_input = true)
    (hd : dictLookup s.room_passwords room = some hsh) :
    login_step now username room password otp_input s
      = if check_password password hsh then
          (LoginResult.verified, { s with dirs := makeDir s.dirs room })
        else
          (LoginResult.wrongPassword, { s with dirs := makeDir s.dirs room }) := by
  unfold login_step
  rw [if_neg hempty, if_neg (by simp [hv])]
  simp only [hd]

lemma login_step_eq_of_none (now : Int)
    (username room password otp_input : String) (s : AppState)
    (hempty : ¬(username = "" ∨ room = "" ∨ password = "" ∨ otp_input = ""))
    (hv : validate_otp now s.otps username otp_input = true)
    (hd : dictLookup s.room_passwords room = none) :
    login_step now username room password otp_input s
      = (LoginResult.created,
         { room_passwords := dictInsert s.room_passwords room (hash_pw password),
           otps := s.otps, dirs := makeDir s.dirs room }) := by
  unfold login_step
  rw [if_neg hempty, if_neg (by simp [hv])]
  simp only [hd]

/-- A supporting fact for the room-directory invariant: every login attempt
preserves `roomInv`, so states reachable through the login handler satisfy
it (the Created path writes the credential only after `os.makedirs`). -/
lemma login_step_preserves_roomInv (now : Int)
    (username room password otp_input : String) (s : AppState)
    (hinv : roomInv s) :
    roomInv (login_step now username room password otp_input s).2 := by
  by_cases hempty : username = "" ∨ room = "" ∨ password = "" ∨ otp_input = ""
  · rw [login_step_eq_missing now username room password otp_input s hempty]
    exact hinv
  · by_cases hv : validate_otp now s.otps username otp_input = true
    · cases hd : dictLookup s.room_passwords room with
      | some hsh =>
          rw [login_step_eq_of_some now username room password otp_input s hsh
            hempty hv hd]
          split
          all_goals
            intro r hr
            exact mem_makeDir_of_mem s.dirs room r (hinv r hr)
      | none =>
          rw [login_step_eq_of_none now username room password otp_input s
            hempty hv hd]
          intro r hr
          have hr2 : (dictLookup (dictInsert s.room_passwords room (hash_pw password))
              r).isSome = true := hr
          by_cases hru : r = room
          · subst hru
            exact mem_makeDir_self s.dirs r
          · rw [dictLookup_dictInsert_ne s.room_passwords room r _ hru] at hr2
            exact mem_makeDir_of_mem s.dirs room r (hinv r hr2)
    · rw [login_step_eq_invalid now username room password otp_input s hempty
        (by simpa using hv)]
      exact hinv

/-- C3: a failed login attempt (missing field, invalid or expired OTP, or
wrong room password) mutates no persisted state: on any state satisfying
the room-directory invariant maintained by the application, the credential
table, the OTP table, and the set of room directories are unchanged. -/
theorem C3_failed_login_frame (now : Int)
    (username room password otp_input : String) (s : AppState)
    (hinv : roomInv s)
    (hfail :
      (login_step now username room password otp_input s).1
          = LoginResult.missingField ∨
      (login_step now username room password otp_input s).1
          = LoginResult.invalidOtp ∨
      (login_step now username room password otp_input s).1
          = LoginResult.wrongPassword) :
    (login_step now username room password otp_input s).2 = s := by
  by_cases hempty : username = "" ∨ room = "" ∨ password = "" ∨ otp_input = ""
  · rw [login_step_eq_missing now username room password otp_input s hempty]
  · by_cases hv : validate_otp now s.otps username otp_input = true
    · cases hd : dictLookup s.room_passwords room with
      | some hsh =>
          rw [login_step_eq_of_some now username room password otp_input s hsh
            hempty hv hd]
          have hdir : room ∈ s.dirs := hinv room (by rw [hd]; rfl)
          have hmk : makeDir s.dirs room = s.dirs := by simp [makeDir, hdir]
          rw [hmk]
          split <;> rfl
      | none =>
          rw [login_step_eq_of_none now username room password otp_input s
            hempty hv hd] at hfail
          rcases hfail with hfail | hfail | hfail <;> simp at hfail
    · rw [login_step_eq_invalid now username room password otp_input s hempty
        (by simpa using hv)]

/-- Witness for C3: an attempt with no OTP on record fails as invalidOtp
and leaves the empty state untouched. -/
theorem C3_witness :
    (login_step 0 "u" "r" "p" "x" ⟨[], [], []⟩).2 = ⟨[], [], []⟩ :=
  C3_failed_login_frame 0 "u" "r" "p" "x" ⟨[], [], []⟩
    (fun r hr => by simp [dictLookup] at hr)
    (Or.inr (Or.inl (by decide)))

/-- C8: pressing Send with an empty or whitespace-only message leaves the
transcript unchanged (a no-op); otherwise exactly the line
`[YYYY-MM-DD HH:MM] username: text` (with the stripped message text and a
trailing newline) is appended at the end, leaving everything previously in
the transcript unchanged and in order. -/
theorem C8_sendMessage_spec (year month day hour minute : Nat)
    (username chat message : String) :
    ((∀ c ∈ message.data, isPySpace c = true) →
      sendMessage (formatTimestamp year month day hour minute) username chat
        message = chat) ∧
    (¬ (∀ c ∈ message.data, isPySpace c = true) →
      sendMessage (formatTimestamp year month day hour minute) username chat
          message
        = chat ++ "[" ++ formatTimestamp year month day hour minute ++ "] "
            ++ username ++ ": " ++ pyStrip message ++ "\n") := by
  constructor
  · intro hws
    rw [sendMessage, if_pos ((pyStrip_eq_empty_iff message).mpr hws)]
  · intro hws
    rw [sendMessage, if_neg (fun h => hws ((pyStrip_eq_empty_iff message).mp h))]

/-- Witness for C8: a whitespace-padded message is stripped and appended as
one formatted line after the existing transcript. -/
theorem C8_witness :
    sendMessage (formatTimestamp 2024 3 7 9 5) "alice" "old\n" "  hi  "
      = "old\n[2024-03-07 09:05] alice: hi\n" := by
  have h := (C8_sendMessage_spec 2024 3 7 9 5 "alice" "old\n" "  hi  ").2
    (by decide)
  rw [h]
  rfl

/-- Witness for C4: after issuing 111111 and then 222222 to `bob`, the
first code is rejected and the second accepted within the window. -/
theorem C4_witness :
    validate_otp 100 (generate_otp 222222 10 (generate_otp 111111 0 [] "bob").2 "bob").2
      "bob" (generate_otp 111111 0 [] "bob").1 = false ∧
    validate_otp 100 (generate_otp 222222 10 (generate_otp 111111 0 [] "bob").2 "bob").2
      "bob" (generate_otp 222222 10 (generate_otp 111111 0 [] "bob").2 "bob").1 = true :=
  have h := C4_issue_twice_overwrites [] "bob" 111111 222222 0 10 (by simp [dictKeys])
  ⟨h.2.2.1 (by decide) 100, h.2.2.2 100 (by decide)⟩

end Chatvita